import Mathlib

/-!
Shallow embedding of `matchengine/internals/utilities/task_utils.py` from
oncokb/matchengine-V2.

Each async handler is modelled as a pure state-transforming function.  The
outcomes of external store calls (pymongo operations, `matchengine.run_query`,
`matchengine.create_trial_matches`) are passed in as explicit `Except` values
or total functions, so a handler computes the resulting engine-side state and
either returns normally (`none`) or raises an exception (`some e`).

State components mirror the attributes the handlers touch:
  * `task_q`        — the asyncio task queue contents (puts append at the end);
  * `done_calls`    — how many times `task_q.task_done()` has been invoked;
  * `queue_task_count` — the `matchengine.queue_task_count` progress counter;
  * `matches`       — the nested `matches[protocol_no][sample_id]` structure,
                      flattened to an append-only list of keyed documents;
  * `loop_stopped`  — whether `matchengine.loop.stop()` was called;
  * `exited`        — whether `matchengine.__exit__(...)` was called;
  * `store_writes`  — the sequence of mutating store calls issued.
-/

namespace TaskUtils

/-- Errors a store call can raise.  Mirrors the pymongo exception classes the
handlers inspect with `isinstance`: `AutoReconnect`, `CursorNotFound`, and an
arbitrary other exception. -/
inductive PyErr
  | autoReconnect
  | cursorNotFound
  | other (code : Nat)
deriving DecidableEq

/-- Models `isinstance(e, AutoReconnect)`. -/
def isAutoReconnect : PyErr → Bool
  | .autoReconnect => true
  | _ => false

/-- Models `isinstance(e, CursorNotFound)`. -/
def isCursorNotFound : PyErr → Bool
  | .cursorNotFound => true
  | _ => false

/-- A single write operation inside a bulk write: either the
`InsertOne({"clinical_id": c, "run_history": []})` staged by the run-log
handler, or an op carried verbatim by an `UpdateTask`. -/
inductive WriteOp
  | insertClinical (clinical_id : Nat)
  | raw (tag : Nat)
deriving DecidableEq

/-- The slice of a trial document the handlers read (`trial['protocol_no']`). -/
structure Trial where
  protocol_no : String
  payload : Nat
deriving DecidableEq

/-- Payload of a `QueryTask` (trial, match clause data, match path, query,
clinical ids), with the fields the handler does not inspect kept abstract. -/
structure QueryTaskData where
  trial : Trial
  match_clause_data : Nat
  match_path : Nat
  query : Nat
  clinical_ids : List Nat
deriving DecidableEq

/-- The closed set of task variants drained from the queue. -/
inductive MTask
  | CheckIndicesTask
  | IndexUpdateTask (collection index : String)
  | QueryTask (td : QueryTaskData)
  | UpdateTask (protocol_no : String) (ops : List WriteOp)
  | RunLogUpdateTask (protocol_no : String)
  | PoisonPill
deriving DecidableEq

/-- A match document produced by `matchengine.create_trial_matches`; the
handler only reads its `sample_id` key. -/
structure MatchDoc where
  sample_id : String
  body : Nat
deriving DecidableEq

/-- The `TrialMatch` tuple built in `run_query_task`, in constructor-argument
order: `TrialMatch(trial, match_clause_data, match_path, query, result,
starttime)`. -/
structure TrialMatch where
  trial : Trial
  match_clause_data : Nat
  match_path : Nat
  query : Nat
  match_reason : Nat
  starttime : Nat
deriving DecidableEq

/-- An index descriptor as returned by `list_indexes()`: the ordered key names
of the index key document (`index['key'].to_dict().keys()`), which is never
empty for a real index, so it is split into the first key and the rest. -/
structure IndexDescr where
  first : String
  rest : List String
deriving DecidableEq

/-- A mutating store call issued by a handler. -/
inductive StoreWrite
  | createIndex (collection index : String)
  | bulkWrite (collection : String) (ops : List WriteOp) (ordered : Bool)
  | insertOne (collection : String) (doc : Nat)
  | updateMany (collection : String) (filter_clinical_ids : List Nat) (pushed_run_id : String)
deriving DecidableEq

/-- Engine-side mutable state observed and mutated by the handlers. -/
structure MEState where
  task_q : List MTask
  done_calls : Nat
  queue_task_count : Nat
  matches_ : List (String × String × MatchDoc)
  loop_stopped : Bool
  exited : Bool
  store_writes : List StoreWrite
deriving DecidableEq

/-- Static engine configuration and run-scoped inputs read by the handlers. -/
structure Engine where
  trial_match_collection : String
  config_indices : List (String × List String)
  run_log_entries : String → Nat
  clinical_run_log_entries : String → List Nat
  run_id_hex : String
  starttime : Nat

/-- Models `matchengine.task_q.task_done()`. -/
def taskDone (s : MEState) : MEState :=
  { s with done_calls := s.done_calls + 1 }

/-- Models `matchengine.task_q.put(t)` / `put_nowait(t)`. -/
def putTask (t : MTask) (s : MEState) : MEState :=
  { s with task_q := s.task_q ++ [t] }

/-- Models `matchengine.loop.stop()`. -/
def stopLoop (s : MEState) : MEState :=
  { s with loop_stopped := true }

/-- Models `matchengine.__exit__(None, None, None)`. -/
def exitEngine (s : MEState) : MEState :=
  { s with exited := true }

/-- Records one mutating store call. -/
def recordWrite (w : StoreWrite) (s : MEState) : MEState :=
  { s with store_writes := s.store_writes ++ [w] }

/-- The `for collection, desired_indices in matchengine.config['indices'].items()`
loop body of `run_check_indices_task`: substitutes the `"trial_match"` alias,
lists existing indexes (recording only the first key of each key document),
and enqueues one `IndexUpdateTask` per element of `set(desired) − existing`.
Returns the state together with the first exception raised, if any; tasks
enqueued before the exception stay enqueued. -/
def checkIndicesLoop (eng : Engine)
    (listIndexes : String → Except PyErr (List IndexDescr)) :
    List (String × List String) → MEState → MEState × Option PyErr
  | [], s => (s, none)
  | (collection, desired_indices) :: restCfg, s =>
    let collection := if collection = "trial_match" then eng.trial_match_collection else collection
    match listIndexes collection with
    | .error e => (s, some e)
    | .ok indices =>
      let existing_indices := indices.map (fun ix => ix.first)
      let indices_to_create :=
        desired_indices.dedup.filter (fun d => ! existing_indices.contains d)
      let s := indices_to_create.foldl (fun st ix => putTask (MTask.IndexUpdateTask collection ix) st) s
      checkIndicesLoop eng listIndexes restCfg s

/-- Handler `run_check_indices_task`: on success acks once; on
`AutoReconnect`/`CursorNotFound` re-enqueues the dequeued task and acks; on
any other error calls `__exit__`, stops the loop, and re-raises. -/
def run_check_indices_task (eng : Engine)
    (listIndexes : String → Except PyErr (List IndexDescr))
    (task : MTask) (s : MEState) : MEState × Option PyErr :=
  match checkIndicesLoop eng listIndexes eng.config_indices s with
  | (s, none) => (taskDone s, none)
  | (s, some e) =>
    if isAutoReconnect e then (taskDone (putTask task s), none)
    else if isCursorNotFound e then (taskDone (putTask task s), none)
    else (stopLoop (exitEngine s), some e)

/-- Handler `run_index_update_task`: issues `create_index`; on success acks;
on `AutoReconnect`/`CursorNotFound` re-enqueues the task and acks; on any
other error stops the loop and swallows the exception (no re-raise, no ack). -/
def run_index_update_task (createIndexResult : Except PyErr Unit)
    (collection index : String) (s : MEState) : MEState × Option PyErr :=
  let s := recordWrite (StoreWrite.createIndex collection index) s
  match createIndexResult with
  | .ok _ => (taskDone s, none)
  | .error e =>
    if isAutoReconnect e then (taskDone (putTask (MTask.IndexUpdateTask collection index) s), none)
    else if isCursorNotFound e then (taskDone (putTask (MTask.IndexUpdateTask collection index) s), none)
    else (stopLoop s, none)

/-- The `for result in results` aggregation loop of `run_query_task`:
increments the progress counter, builds a `TrialMatch`, converts it via
`create_trial_matches` (the one fallible step of the phase), and appends the
document under `(protocol_no, sample_id)`.  Effects of iterations before a
raise are kept. -/
def aggregateResults (create : TrialMatch → Except PyErr MatchDoc)
    (eng : Engine) (td : QueryTaskData) :
    List Nat → MEState → MEState × Option PyErr
  | [], s => (s, none)
  | result :: restResults, s =>
    let s := { s with queue_task_count := s.queue_task_count + 1 }
    match create ⟨td.trial, td.match_clause_data, td.match_path, td.query, result, eng.starttime⟩ with
    | .error e => (s, some e)
    | .ok doc =>
      let s := { s with matches_ := s.matches_ ++ [(td.trial.protocol_no, doc.sample_id, doc)] }
      aggregateResults create eng td restResults s

/-- Handler `run_query_task`.  Phase 1 runs the query: on `AutoReconnect` /
`CursorNotFound` it re-enqueues the task, acks, and falls through with an
empty result list; on any other error it stops the loop and falls through
with an empty result list.  Phase 2 aggregates: a raise there stops the loop
and propagates; otherwise the final `task_done()` fires. -/
def run_query_task (eng : Engine)
    (runQueryResult : Except PyErr (List Nat))
    (create : TrialMatch → Except PyErr MatchDoc)
    (td : QueryTaskData) (s : MEState) : MEState × Option PyErr :=
  let phase1 : List Nat × MEState :=
    match runQueryResult with
    | .ok res => (res, s)
    | .error e =>
      if isAutoReconnect e then ([], taskDone (putTask (MTask.QueryTask td) s))
      else if isCursorNotFound e then ([], taskDone (putTask (MTask.QueryTask td) s))
      else ([], stopLoop s)
  match aggregateResults create eng td phase1.1 phase1.2 with
  | (s, some e) => (stopLoop s, some e)
  | (s, none) => (taskDone s, none)

/-- Handler `run_poison_pill`: acks and returns. -/
def run_poison_pill (s : MEState) : MEState × Option PyErr :=
  (taskDone s, none)

/-- Handler `run_update_task`: submits `task.ops` as one unordered bulk write
to the trial-match collection.  On `AutoReconnect` the except branch acks and
re-enqueues, then the `finally` acks again; on any other error the `finally`
acks and the exception propagates; on success the `finally` acks. -/
def run_update_task (eng : Engine) (bulkWriteResult : Except PyErr Unit)
    (protocol_no : String) (ops : List WriteOp) (s : MEState) : MEState × Option PyErr :=
  let s := recordWrite (StoreWrite.bulkWrite eng.trial_match_collection ops false) s
  match bulkWriteResult with
  | .ok _ => (taskDone s, none)
  | .error e =>
    if isAutoReconnect e then
      (taskDone (putTask (MTask.UpdateTask protocol_no ops) (taskDone s)), none)
    else
      (taskDone s, some e)

/-- Handler `run_run_log_update_task`: gathers `distinct("clinical_id")` with
`insert_one(run_log_entries[protocol_no])`; stages one
`InsertOne({clinical_id, run_history: []})` per id of
`set(clinical_run_log_entries[protocol_no]) − set(dont_need_insert)`, bulk
writing them (unordered) only when non-empty; then unconditionally
`update_many` pushes `run_id.hex` onto `run_history` of every document whose
`clinical_id` is in `clinical_run_log_entries[protocol_no]`.  On
`AutoReconnect` the except branch acks and re-enqueues, then the `finally`
acks again; on any other error the `finally` acks and the exception
propagates. -/
def run_run_log_update_task (eng : Engine)
    (distinctResult : Except PyErr (List Nat))
    (insertOneResult : Except PyErr Unit)
    (bulkWriteResult : Except PyErr Unit)
    (updateManyResult : Except PyErr Unit)
    (protocol_no : String) (s : MEState) : MEState × Option PyErr :=
  let chc := "clinical_run_history_" ++ eng.trial_match_collection
  let rlc := "run_log_" ++ eng.trial_match_collection
  let s := recordWrite (StoreWrite.insertOne rlc (eng.run_log_entries protocol_no)) s
  let gathered : Except PyErr (List Nat) :=
    match distinctResult, insertOneResult with
    | .error e, _ => .error e
    | _, .error e => .error e
    | .ok dont_need_insert, .ok _ => .ok dont_need_insert
  let body : MEState × Option PyErr :=
    match gathered with
    | .error e => (s, some e)
    | .ok dont_need_insert =>
      let new_clinical_run_log_docs :=
        (eng.clinical_run_log_entries protocol_no).dedup.filter
          (fun c => ! dont_need_insert.contains c)
      let clinical_update_ops :=
        new_clinical_run_log_docs.map (fun c => WriteOp.insertClinical c)
      let step4 : MEState × Option PyErr :=
        if clinical_update_ops.isEmpty then (s, none)
        else
          let s := recordWrite (StoreWrite.bulkWrite chc clinical_update_ops false) s
          match bulkWriteResult with
          | .ok _ => (s, none)
          | .error e => (s, some e)
      match step4 with
      | (s, some e) => (s, some e)
      | (s, none) =>
        let s := recordWrite
          (StoreWrite.updateMany chc (eng.clinical_run_log_entries protocol_no) eng.run_id_hex) s
        match updateManyResult with
        | .ok _ => (s, none)
        | .error e => (s, some e)
  match body with
  | (s, none) => (taskDone s, none)
  | (s, some e) =>
    if isAutoReconnect e then
      (taskDone (putTask (MTask.RunLogUpdateTask protocol_no) (taskDone s)), none)
    else
      (taskDone s, some e)

/-- A fresh engine state: empty queue, zero counters, nothing stopped. -/
def st0 : MEState := ⟨[], 0, 0, [], false, false, []⟩

/-- A minimal concrete engine configuration. -/
def eng0 : Engine := ⟨"trial_match_v1", [], fun _ => 0, fun _ => [], "runid0", 0⟩

/-- A concrete trial reference. -/
def trial0 : Trial := ⟨"P001", 0⟩

/-- A concrete `QueryTask` payload. -/
def qtd0 : QueryTaskData := ⟨trial0, 0, 0, 0, []⟩

/-- Engine configured with one desired index, as in end-to-end scenario A. -/
def engA : Engine := { eng0 with config_indices := [("patient", ["mrn"])] }

/-- Engine configured with one desired index on collection `"c"`. -/
def engB : Engine := { eng0 with config_indices := [("c", ["i"])] }

/-- Engine whose run-log clinical-id set for any protocol is `[1, 2]`. -/
def engC : Engine := { eng0 with clinical_run_log_entries := fun _ => [1, 2] }

/-- Modelled from the spec wording of §4.3: the index-update tasks a
`CheckIndicesTask` should enqueue — for each configured pair, after alias
substitution, one `IndexUpdateTask` per element of `desired − existing`. -/
def specCheckIndicesExpectedTasks (eng : Engine) (li : String → List IndexDescr)
    (cfg : List (String × List String)) : List MTask :=
  cfg.flatMap (fun cd =>
    let col := if cd.1 = "trial_match" then eng.trial_match_collection else cd.1
    (cd.2.dedup.filter (fun d => ! ((li col).map (fun ix => ix.first)).contains d)).map
      (fun d => MTask.IndexUpdateTask col d))

/-- Modelled from the spec wording of §4.5: the keyed match documents a
successful `QueryTask` should append, one per match reason, in order. -/
def specAggregatedDocs (create : TrialMatch → MatchDoc) (eng : Engine)
    (td : QueryTaskData) (results : List Nat) : List (String × String × MatchDoc) :=
  results.map (fun r =>
    let doc := create ⟨td.trial, td.match_clause_data, td.match_path, td.query, r, eng.starttime⟩
    (td.trial.protocol_no, doc.sample_id, doc))

/-- Folding `putTask` over a mapped list appends the mapped tasks to the queue. -/
theorem foldl_putTask_map {α : Type} (f : α → MTask) (l : List α) (s : MEState) :
    l.foldl (fun st x => putTask (f x) st) s = { s with task_q := s.task_q ++ l.map f } := by
  induction l generalizing s with
  | nil => simp [putTask]
  | cons a t ih =>
    simp only [List.foldl_cons, ih, List.map_cons]
    simp [putTask, List.append_assoc]

/-- When every `list_indexes` call succeeds, the check-indices loop enqueues
exactly the spec-expected index-update tasks and raises nothing. -/
theorem checkIndicesLoop_total_ok (eng : Engine) (li : String → List IndexDescr)
    (cfg : List (String × List String)) :
    ∀ s : MEState, checkIndicesLoop eng (fun c => .ok (li c)) cfg s
      = ({ s with task_q := s.task_q ++ specCheckIndicesExpectedTasks eng li cfg }, none) := by
  induction cfg with
  | nil => intro s; simp [checkIndicesLoop, specCheckIndicesExpectedTasks]
  | cons cd restCfg ih =>
    intro s
    obtain ⟨collection, desired⟩ := cd
    simp only [checkIndicesLoop, specCheckIndicesExpectedTasks, List.flatMap_cons, foldl_putTask_map, ih]
    simp [specCheckIndicesExpectedTasks, List.append_assoc]

/-- When `create_trial_matches` always succeeds, the aggregation loop bumps
the counter once per reason and appends the spec-expected documents. -/
theorem aggregateResults_total_ok (create : TrialMatch → MatchDoc) (eng : Engine)
    (td : QueryTaskData) (results : List Nat) :
    ∀ s : MEState, aggregateResults (fun tm => .ok (create tm)) eng td results s
      = ({ s with queue_task_count := s.queue_task_count + results.length,
                  matches_ := s.matches_ ++ specAggregatedDocs create eng td results }, none) := by
  induction results with
  | nil => intro s; simp [aggregateResults, specAggregatedDocs]
  | cons r restResults ih =>
    intro s
    simp only [aggregateResults, ih, specAggregatedDocs, List.map_cons]
    simp [MEState.mk.injEq, List.append_assoc, specAggregatedDocs]
    omega

/-- Claim C1 (violated by the code): the transient (AutoReconnect) retry paths
of the UpdateTask, RunLogUpdateTask and QueryTask handlers each call
`task_done()` twice for the single dequeued task — once in the transient
except branch and once in the unconditional final/`finally` acknowledgment —
where the spec's queue invariant demands exactly one acknowledgment. -/
theorem C1_transient_paths_ack_twice :
    (run_update_task eng0 (.error .autoReconnect) "P001" [] st0).1.done_calls = 2
    ∧ (run_run_log_update_task eng0 (.error .autoReconnect) (.ok ()) (.ok ()) (.ok ())
        "P001" st0).1.done_calls = 2
    ∧ (run_query_task eng0 (.error .autoReconnect) (fun _ => .ok ⟨"s1", 0⟩)
        qtd0 st0).1.done_calls = 2 :=
  ⟨rfl, rfl, rfl⟩

/-- Claim C2 counterexample: a `CursorNotFound` (server-side cursor expiry)
caught by the UpdateTask handler is propagated to the caller and the task is
not re-enqueued, contradicting the claim that every handler re-enqueues and
never surfaces a Transient-Store error. -/
theorem C2_counterexample_update_cursor_not_found_propagates :
    (run_update_task eng0 (.error .cursorNotFound) "P001" [] st0).2 = some PyErr.cursorNotFound
    ∧ (run_update_task eng0 (.error .cursorNotFound) "P001" [] st0).1.task_q = [] :=
  ⟨rfl, rfl⟩

/-- Claim C2 as amended: the CheckIndicesTask, IndexUpdateTask and QueryTask
handlers re-enqueue the identical task and surface nothing on both
connection-loss (AutoReconnect) and cursor-expired (CursorNotFound) errors;
the UpdateTask and RunLogUpdateTask handlers do so only on AutoReconnect and
propagate a CursorNotFound error without re-enqueueing. -/
theorem C2_amended_transient_classification
    (eng : Engine) (li : String → Except PyErr (List IndexDescr)) (task : MTask)
    (s s2 : MEState) (e : PyErr) (col ix p : String) (ops : List WriteOp)
    (td : QueryTaskData) (create : TrialMatch → Except PyErr MatchDoc)
    (he : e = PyErr.autoReconnect ∨ e = PyErr.cursorNotFound)
    (hl : checkIndicesLoop eng li eng.config_indices s = (s2, some e)) :
    run_check_indices_task eng li task s = (taskDone (putTask task s2), none)
    ∧ run_index_update_task (.error e) col ix s
      = (taskDone (putTask (MTask.IndexUpdateTask col ix) (recordWrite (StoreWrite.createIndex col ix) s)), none)
    ∧ (run_query_task eng (.error e) create td s).2 = none
    ∧ (run_query_task eng (.error e) create td s).1.task_q = s.task_q ++ [MTask.QueryTask td]
    ∧ (run_update_task eng (.error PyErr.autoReconnect) p ops s).2 = none
    ∧ (run_update_task eng (.error PyErr.autoReconnect) p ops s).1.task_q
      = s.task_q ++ [MTask.UpdateTask p ops]
    ∧ (run_update_task eng (.error PyErr.cursorNotFound) p ops s).2 = some PyErr.cursorNotFound
    ∧ (run_update_task eng (.error PyErr.cursorNotFound) p ops s).1.task_q = s.task_q
    ∧ (run_run_log_update_task eng (.error PyErr.autoReconnect) (.ok ()) (.ok ()) (.ok ()) p s).2 = none
    ∧ (run_run_log_update_task eng (.error PyErr.autoReconnect) (.ok ()) (.ok ()) (.ok ()) p s).1.task_q
      = s.task_q ++ [MTask.RunLogUpdateTask p]
    ∧ (run_run_log_update_task eng (.error PyErr.cursorNotFound) (.ok ()) (.ok ()) (.ok ()) p s).2
      = some PyErr.cursorNotFound
    ∧ (run_run_log_update_task eng (.error PyErr.cursorNotFound) (.ok ()) (.ok ()) (.ok ()) p s).1.task_q
      = s.task_q := by
  rcases he with rfl | rfl <;>
    exact ⟨by simp [run_check_indices_task, hl, isAutoReconnect, isCursorNotFound],
      rfl, rfl, rfl, rfl, rfl, rfl, rfl, rfl, rfl, rfl, rfl⟩

/-- Claim C2 witness: with one configured collection and a store that reports
an expired cursor while listing indexes, the CheckIndicesTask handler
re-enqueues the dequeued task itself and raises nothing. -/
theorem C2_amended_transient_classification_witness :
    run_check_indices_task engB (fun _ => .error PyErr.cursorNotFound) MTask.CheckIndicesTask st0
      = (taskDone (putTask MTask.CheckIndicesTask st0), none) :=
  (C2_amended_transient_classification engB (fun _ => .error PyErr.cursorNotFound)
    MTask.CheckIndicesTask st0 st0 PyErr.cursorNotFound "c" "i" "P1" [] qtd0
    (fun _ => .ok ⟨"s1", 0⟩) (Or.inr rfl) rfl).1

/-- Claim C3: for the QueryTask handler, a non-transient error during query
execution stops the pool, does not propagate, and the handler continues into
the aggregation phase with an empty result set (matches and queue untouched);
whereas any error raised in the aggregation/append phase stops the pool and
is propagated to the caller. -/
theorem C3_query_task_two_phase_errors
    (eng : Engine) (td : QueryTaskData) (s : MEState)
    (create : TrialMatch → Except PyErr MatchDoc) :
    (∀ n, (run_query_task eng (.error (.other n)) create td s).1.loop_stopped = true
      ∧ (run_query_task eng (.error (.other n)) create td s).2 = none
      ∧ (run_query_task eng (.error (.other n)) create td s).1.matches_ = s.matches_
      ∧ (run_query_task eng (.error (.other n)) create td s).1.task_q = s.task_q)
    ∧ (∀ results s2 e, aggregateResults create eng td results s = (s2, some e) →
        run_query_task eng (.ok results) create td s = (stopLoop s2, some e)) := by
  refine ⟨fun n => ⟨rfl, rfl, rfl, rfl⟩, fun results s2 e h => ?_⟩
  simp [run_query_task, h]

/-- Claim C3 witness: a QueryTask whose document conversion raises a
non-transient error during aggregation stops the pool and propagates it. -/
theorem C3_query_task_two_phase_errors_witness :
    run_query_task eng0 (.ok [5]) (fun _ => .error (PyErr.other 7)) qtd0 st0
      = (stopLoop { st0 with queue_task_count := 1 }, some (PyErr.other 7)) :=
  (C3_query_task_two_phase_errors eng0 qtd0 st0 (fun _ => .error (PyErr.other 7))).2
    [5] { st0 with queue_task_count := 1 } (PyErr.other 7) rfl

/-- Claim C6: on a QueryTask whose query yields a list of match reasons and
whose document conversion succeeds, the handler grows the progress counter by
exactly the number of reasons, appends one keyed match document per reason
after the existing entries (removing and reordering nothing), and returns
normally. -/
theorem C6_query_task_success_aggregation
    (eng : Engine) (td : QueryTaskData) (s : MEState) (results : List Nat)
    (createF : TrialMatch → MatchDoc) :
    (run_query_task eng (.ok results) (fun tm => .ok (createF tm)) td s).1.queue_task_count
      = s.queue_task_count + results.length
    ∧ (run_query_task eng (.ok results) (fun tm => .ok (createF tm)) td s).1.matches_
      = s.matches_ ++ specAggregatedDocs createF eng td results
    ∧ (run_query_task eng (.ok results) (fun tm => .ok (createF tm)) td s).2 = none := by
  have h := aggregateResults_total_ok createF eng td results s
  refine ⟨?_, ?_, ?_⟩ <;> simp [run_query_task, h, taskDone]

/-- Claim C7: a QueryTask attempt that fails with a transient store error
during query execution leaves the shared matches structure, the progress
counter, and the store-write log unchanged, re-enqueues the same task at the
end of the queue, and surfaces nothing. -/
theorem C7_query_task_transient_frame
    (eng : Engine) (td : QueryTaskData) (s : MEState)
    (create : TrialMatch → Except PyErr MatchDoc) :
    ((run_query_task eng (.error .autoReconnect) create td s).1.matches_ = s.matches_
      ∧ (run_query_task eng (.error .autoReconnect) create td s).1.queue_task_count
        = s.queue_task_count
      ∧ (run_query_task eng (.error .autoReconnect) create td s).1.store_writes = s.store_writes
      ∧ (run_query_task eng (.error .autoReconnect) create td s).1.task_q
        = s.task_q ++ [MTask.QueryTask td]
      ∧ (run_query_task eng (.error .autoReconnect) create td s).2 = none)
    ∧ ((run_query_task eng (.error .cursorNotFound) create td s).1.matches_ = s.matches_
      ∧ (run_query_task eng (.error .cursorNotFound) create td s).1.queue_task_count
        = s.queue_task_count
      ∧ (run_query_task eng (.error .cursorNotFound) create td s).1.store_writes = s.store_writes
      ∧ (run_query_task eng (.error .cursorNotFound) create td s).1.task_q
        = s.task_q ++ [MTask.QueryTask td]
      ∧ (run_query_task eng (.error .cursorNotFound) create td s).2 = none) :=
  ⟨⟨rfl, rfl, rfl, rfl, rfl⟩, ⟨rfl, rfl, rfl, rfl, rfl⟩⟩

/-- Claim C8: the UpdateTask handler submits the task's whole op sequence as a
single unordered bulk write to the run's match-document collection; on a
transient (AutoReconnect) error it re-enqueues the same task and surfaces
nothing; on any other error it propagates the exception while leaving the
pool's stop flag exactly as it was. -/
theorem C8_update_task_bulk_write_and_errors
    (eng : Engine) (p : String) (ops : List WriteOp) (s : MEState) :
    ((run_update_task eng (.ok ()) p ops s).1.store_writes
        = s.store_writes ++ [StoreWrite.bulkWrite eng.trial_match_collection ops false]
      ∧ (run_update_task eng (.ok ()) p ops s).2 = none)
    ∧ ((run_update_task eng (.error .autoReconnect) p ops s).2 = none
      ∧ (run_update_task eng (.error .autoReconnect) p ops s).1.task_q
        = s.task_q ++ [MTask.UpdateTask p ops])
    ∧ (∀ n, (run_update_task eng (.error (.other n)) p ops s).2 = some (PyErr.other n)
      ∧ (run_update_task eng (.error (.other n)) p ops s).1.loop_stopped = s.loop_stopped
      ∧ (run_update_task eng (.error (.other n)) p ops s).1.store_writes
        = s.store_writes ++ [StoreWrite.bulkWrite eng.trial_match_collection ops false])
    ∧ ((run_update_task eng (.error .cursorNotFound) p ops s).2 = some PyErr.cursorNotFound
      ∧ (run_update_task eng (.error .cursorNotFound) p ops s).1.loop_stopped
        = s.loop_stopped) :=
  ⟨⟨rfl, rfl⟩, ⟨rfl, rfl⟩, fun _ => ⟨rfl, rfl, rfl⟩, ⟨rfl, rfl⟩⟩

/-- Claim C4: when every `list_indexes` call succeeds, the CheckIndicesTask
handler substitutes the `"trial_match"` alias, reads existing index key names,
and enqueues exactly one `IndexUpdateTask` per element of `desired − existing`
for every configured pair, mutating nothing in the store and raising nothing;
in particular, with desired `{"patient": {"mrn"}}` and no existing indexes it
enqueues exactly `IndexUpdateTask("patient", "mrn")`. -/
theorem C4_check_indices_enqueues_exactly_missing
    (eng : Engine) (li : String → List IndexDescr) (task : MTask) (s : MEState) :
    ((run_check_indices_task eng (fun c => .ok (li c)) task s).1.task_q
        = s.task_q ++ specCheckIndicesExpectedTasks eng li eng.config_indices
      ∧ (run_check_indices_task eng (fun c => .ok (li c)) task s).1.store_writes = s.store_writes
      ∧ (run_check_indices_task eng (fun c => .ok (li c)) task s).2 = none)
    ∧ (run_check_indices_task engA (fun _ => .ok []) MTask.CheckIndicesTask st0).1.task_q
        = [MTask.IndexUpdateTask "patient" "mrn"] := by
  have h := checkIndicesLoop_total_ok eng li eng.config_indices s
  exact ⟨by refine ⟨?_, ?_, ?_⟩ <;> simp [run_check_indices_task, h, taskDone], by decide⟩

/-- Claim C5: on the error-free path the RunLogUpdateTask handler inserts the
trial's run-log summary document, stages one fresh-ledger insert per clinical
id of `clinicalRunLogEntries[protocolNo]` not already holding a ledger,
submits them as one unordered bulk write only when that staged list is
non-empty, and then unconditionally pushes the run id onto the run history of
every clinical id in `clinicalRunLogEntries[protocolNo]`. -/
theorem C5_run_log_update_happy_path
    (eng : Engine) (p : String) (dont : List Nat) (s : MEState)
    (hnd : (eng.clinical_run_log_entries p).Nodup) :
    (run_run_log_update_task eng (.ok dont) (.ok ()) (.ok ()) (.ok ()) p s).1.store_writes
      = s.store_writes
        ++ [StoreWrite.insertOne ("run_log_" ++ eng.trial_match_collection)
              (eng.run_log_entries p)]
        ++ (if (((eng.clinical_run_log_entries p).filter (fun c => ! dont.contains c)).map
                  (fun c => WriteOp.insertClinical c)).isEmpty
            then []
            else [StoreWrite.bulkWrite ("clinical_run_history_" ++ eng.trial_match_collection)
                   (((eng.clinical_run_log_entries p).filter (fun c => ! dont.contains c)).map
                     (fun c => WriteOp.insertClinical c)) false])
        ++ [StoreWrite.updateMany ("clinical_run_history_" ++ eng.trial_match_collection)
             (eng.clinical_run_log_entries p) eng.run_id_hex]
    ∧ (run_run_log_update_task eng (.ok dont) (.ok ()) (.ok ()) (.ok ()) p s).2 = none := by
  have hd : (eng.clinical_run_log_entries p).dedup = eng.clinical_run_log_entries p :=
    List.dedup_eq_self.mpr hnd
  by_cases hops : ∀ a ∈ eng.clinical_run_log_entries p, a ∈ dont
  · have hcond := eq_true hops
    refine ⟨?_, ?_⟩ <;>
      simp [run_run_log_update_task, hd, hcond, recordWrite, taskDone, List.append_assoc]
  · have hcond := eq_false hops
    refine ⟨?_, ?_⟩ <;>
      simp [run_run_log_update_task, hd, hcond, recordWrite, taskDone, List.append_assoc]

/-- Claim C5 witness: with clinical ids `[1, 2]`, id `1` already holding a
ledger, the handler inserts the summary document, bulk-writes one fresh
ledger for id `2`, and pushes the run id for both ids. -/
theorem C5_run_log_update_happy_path_witness :
    (run_run_log_update_task engC (.ok [1]) (.ok ()) (.ok ()) (.ok ()) "P1" st0).1.store_writes
      = [StoreWrite.insertOne "run_log_trial_match_v1" 0,
         StoreWrite.bulkWrite "clinical_run_history_trial_match_v1" [WriteOp.insertClinical 2] false,
         StoreWrite.updateMany "clinical_run_history_trial_match_v1" [1, 2] "runid0"]
    ∧ (run_run_log_update_task engC (.ok [1]) (.ok ()) (.ok ()) (.ok ()) "P1" st0).2 = none := by
  have h := C5_run_log_update_happy_path engC "P1" [1] st0 (by decide)
  exact ⟨h.1.trans (by decide), h.2⟩

/-- Claim C9 counterexample: a fatal (non-transient) error in the
IndexUpdateTask handler stops the loop but does not release the engine's held
resources (`__exit__` is never called), refuting the claim that all three
named handlers perform both the stop signal and the resource release. -/
theorem C9_counterexample_index_fatal_keeps_resources :
    (run_index_update_task (.error (.other 0)) "c" "i" st0).1.loop_stopped = true
    ∧ (run_index_update_task (.error (.other 0)) "c" "i" st0).1.exited = false :=
  ⟨rfl, rfl⟩

/-- Claim C9 as amended: on a fatal failure the CheckIndicesTask handler both
stops the loop and releases held resources, then propagates; the
IndexUpdateTask and QueryTask fatal branches stop the loop only, leaving
resources unreleased (IndexUpdateTask swallows the error, and a QueryTask
query-phase fatal error is likewise not propagated). -/
theorem C9_amended_fatal_stop_and_release
    (eng : Engine) (li : String → Except PyErr (List IndexDescr)) (task : MTask)
    (s s2 : MEState) (n : Nat) (col ix : String) (td : QueryTaskData)
    (create : TrialMatch → MatchDoc)
    (hl : checkIndicesLoop eng li eng.config_indices s = (s2, some (PyErr.other n))) :
    run_check_indices_task eng li task s = (stopLoop (exitEngine s2), some (PyErr.other n))
    ∧ (run_index_update_task (.error (.other n)) col ix s).1.loop_stopped = true
    ∧ (run_index_update_task (.error (.other n)) col ix s).1.exited = s.exited
    ∧ (run_index_update_task (.error (.other n)) col ix s).2 = none
    ∧ (run_query_task eng (.error (.other n)) (fun tm => .ok (create tm)) td s).1.loop_stopped = true
    ∧ (run_query_task eng (.error (.other n)) (fun tm => .ok (create tm)) td s).1.exited = s.exited
    ∧ (run_query_task eng (.error (.other n)) (fun tm => .ok (create tm)) td s).2 = none := by
  exact ⟨by simp [run_check_indices_task, hl, isAutoReconnect, isCursorNotFound],
    rfl, rfl, rfl, rfl, rfl, rfl⟩

/-- Claim C9 witness: with one configured collection and `list_indexes`
raising a non-transient error, the CheckIndicesTask handler stops the loop,
releases resources, and propagates the error. -/
theorem C9_amended_fatal_stop_and_release_witness :
    run_check_indices_task engB (fun _ => .error (PyErr.other 3)) MTask.CheckIndicesTask st0
      = (stopLoop (exitEngine st0), some (PyErr.other 3)) :=
  (C9_amended_fatal_stop_and_release engB (fun _ => .error (PyErr.other 3))
    MTask.CheckIndicesTask st0 st0 3 "c" "i" qtd0 (fun _ => ⟨"s1", 0⟩) rfl).1

/-- Claim C10: the CheckIndicesTask handler records only the first key of each
existing index's key document, so a desired index name occurring only as a
non-leading key of an existing compound index is still counted missing and an
`IndexUpdateTask` is enqueued for it. -/
theorem C10_compound_index_counts_first_key_only
    (eng : Engine) (task : MTask) (s : MEState) (col d fk : String)
    (restKeys : List String) (ixs : List IndexDescr)
    (hcfg : eng.config_indices = [(col, [d])])
    (hcol : col ≠ "trial_match")
    (hcompound : IndexDescr.mk fk restKeys ∈ ixs ∧ d ∈ restKeys)
    (hmiss : ∀ ix ∈ ixs, ix.first ≠ d) :
    (run_check_indices_task eng (fun _ => .ok ixs) task s).1.task_q
      = s.task_q ++ [MTask.IndexUpdateTask col d]
    ∧ (run_check_indices_task eng (fun _ => .ok ixs) task s).2 = none := by
  have hnot : ¬ ∃ a ∈ ixs, a.first = d := by
    intro h
    obtain ⟨a, ha, he⟩ := h
    exact hmiss a ha he
  refine ⟨?_, ?_⟩ <;>
    simp [run_check_indices_task, checkIndicesLoop, hcfg, hcol, hnot, putTask, taskDone]

/-- Claim C10 witness: with desired index `"mrn"` on `"patient"` and one
existing compound index whose keys are `("sample_id", "mrn")`, the handler
still enqueues `IndexUpdateTask("patient", "mrn")`. -/
theorem C10_compound_index_counts_first_key_only_witness :
    (run_check_indices_task engA (fun _ => .ok [⟨"sample_id", ["mrn"]⟩])
        MTask.CheckIndicesTask st0).1.task_q
      = [MTask.IndexUpdateTask "patient" "mrn"]
    ∧ (run_check_indices_task engA (fun _ => .ok [⟨"sample_id", ["mrn"]⟩])
        MTask.CheckIndicesTask st0).2 = none :=
  C10_compound_index_counts_first_key_only engA MTask.CheckIndicesTask st0
    "patient" "mrn" "sample_id" ["mrn"] [⟨"sample_id", ["mrn"]⟩]
    rfl (by decide) (by decide) (by decide)

end TaskUtils
